import Mathlib

/- Shallow embedding of the AccountManager component of the eng.whatsapp
   backend (the multi-account WhatsApp session manager), together with the
   readiness-verification loop of the legacy single-account client.

   Modelling conventions:
   - JS Maps (accounts, deletedMessages) are insertion-ordered association
     lists, with Map.set semantics (replace in place, append if new).
   - The event emitter is explicit: operations that emit return the list of
     emitted events.
   - setTimeout-based rescheduling is explicit: the readiness check returns
     the next scheduled invocation (retry counter and delay) instead of
     re-arming a timer.
   - Fallible JS calls (property getters and async calls that may throw)
     are values of JsResult.
   - File writes (saveAccountsConfig / saveDeletedMessages) are modelled by
     a disk field holding the last written snapshot. -/

namespace Whatsapp

/-- Outcome of a fallible JavaScript call: a resolved value or a thrown error. -/
inductive JsResult (α : Type) where
  | ok (val : α)
  | err
  deriving DecidableEq, Repr

/-- Chats are opaque view models here; only identity matters to the manager. -/
abbrev Chat := String

/-- The puppeteer page handle as observed by the manager: the isClosed call
can itself throw, so its outcome is a JsResult. -/
structure Page where
  isClosedResult : JsResult Bool
  deriving DecidableEq, Repr

/-- The automation-library client handle, reduced to the observations the
manager makes of it: the pupPage property, whether a getChats function is
present, the info getter (ok with an optional wid.user string, or a throw),
and the outcome of an actual getChats call. -/
structure ClientHandle where
  handleId : Nat
  pupPage : Option Page
  hasGetChats : Bool
  info : JsResult (Option String)
  getChatsResult : JsResult (List Chat)
  deriving DecidableEq, Repr

/-- One account entry of the accounts Map, with the transient session
fields that live next to the persisted metadata. -/
structure Account where
  id : String
  name : String
  phone : Option String
  createdAt : Nat
  client : Option ClientHandle
  isReady : Bool
  isAuthenticated : Bool
  isInitializing : Bool
  qrCode : Option String
  deriving DecidableEq, Repr

/-- One record of the deleted-message ledger, as assembled in the
message_revoke_everyone handler. -/
structure DeletedMessageRecord where
  id : String
  chatId : String
  body : String
  timestamp : Nat
  fromMe : Bool
  author : Option String
  hasMedia : Bool
  deletedAt : Nat
  originalType : String
  accountId : String
  deriving DecidableEq, Repr

/-- The persisted projection of one account, as written by saveAccountsConfig. -/
structure PersistedAccount where
  id : String
  name : String
  phone : Option String
  createdAt : Nat
  deriving DecidableEq, Repr

/-- The accounts.json snapshot: active pointer plus persisted account list. -/
structure AccountsConfig where
  activeAccountId : Option String
  accounts : List PersistedAccount
  deriving DecidableEq, Repr

/-- Normalized lifecycle events emitted to the fanout layer (only the kinds
the claims observe). -/
inductive Event where
  | ready (accountId : String)
  | message (accountId : String)
  | authenticated (accountId : String)
  deriving DecidableEq, Repr

/-- The AccountManager state: the accounts Map, the active pointer, the
capacity bound, the deleted-message ledger, the manager-wide chats cache,
and the last snapshots written to disk. -/
structure ManagerState where
  accounts : List Account
  activeAccountId : Option String
  maxAccounts : Nat
  deletedMessages : List (String × DeletedMessageRecord)
  chatsCache : Option (List Chat)
  chatsCacheTime : Nat
  disk : AccountsConfig
  deletedDisk : List (String × DeletedMessageRecord)
  deriving DecidableEq, Repr

/-- JavaScript string-or-default: the expression (s || d) applied to a
possibly-absent string. -/
def jsStrOr (s : Option String) (d : String) : String :=
  match s with
  | none => d
  | some v => if v == "" then d else v

/-- JavaScript (s || null) applied to a possibly-absent string. -/
def jsOptOr (s : Option String) : Option String :=
  match s with
  | none => none
  | some v => if v == "" then none else some v

/-- JS Map.set on the accounts Map: replace the entry with the same id in
place, or append a new entry. -/
def mapSet (accounts : List Account) (account : Account) : List Account :=
  if accounts.any (fun a => a.id == account.id) then
    accounts.map (fun a => if a.id == account.id then account else a)
  else
    accounts ++ [account]

/-- JS Map.get on the accounts Map. -/
def getAccountIn (accounts : List Account) (accountId : String) : Option Account :=
  accounts.find? (fun a => a.id == accountId)

/-- this.accounts.get(accountId). -/
def getAccount (s : ManagerState) (accountId : String) : Option Account :=
  getAccountIn s.accounts accountId

/-- Point update of one account entry (mutation of the captured account
object through the Map). -/
def updateAccount (accounts : List Account) (accountId : String)
    (f : Account → Account) : List Account :=
  accounts.map (fun a => if a.id == accountId then f a else a)

/-- saveAccountsConfig: the snapshot written to accounts.json — the active
pointer and the persisted projection of every account, in stored order. -/
def saveAccountsConfig (s : ManagerState) : AccountsConfig :=
  { activeAccountId := s.activeAccountId
    accounts := s.accounts.map (fun a =>
      { id := a.id, name := a.name, phone := a.phone, createdAt := a.createdAt }) }

/-- The manager state as built by the constructor before any config is
loaded: empty Map, null active pointer, maxAccounts = 10. -/
def initialManager : ManagerState :=
  { accounts := []
    activeAccountId := none
    maxAccounts := 10
    deletedMessages := []
    chatsCache := none
    chatsCacheTime := 0
    disk := { activeAccountId := none, accounts := [] }
    deletedDisk := [] }

/-- loadAccountsConfig: rebuilds the accounts Map from a persisted snapshot
at startup. Every transient session field starts at its uninitialized
default (client null, flags false, qrCode null); activeAccountId and phone
go through the JS (x || null) coercion. The hasStoredSession flag derived
from the filesystem is not modelled (no claim observes it). -/
def loadAccountsConfig (c : AccountsConfig) : ManagerState :=
  { accounts := c.accounts.map (fun acc =>
      { id := acc.id
        name := acc.name
        phone := jsOptOr acc.phone
        createdAt := acc.createdAt
        client := none
        isReady := false
        isAuthenticated := false
        isInitializing := false
        qrCode := none })
    activeAccountId := jsOptOr c.activeAccountId
    maxAccounts := 10
    deletedMessages := []
    chatsCache := none
    chatsCacheTime := 0
    disk := c
    deletedDisk := [] }

/-- createAccount: throws when the Map already holds maxAccounts entries
(the throw happens before any mutation, so the account set and the
persisted store are untouched in that case); otherwise inserts the fresh
account, makes it active iff the Map now holds exactly one entry, and
persists. The generated id and Date.now() are parameters. -/
def createAccount (s : ManagerState) (name : Option String) (now : Nat)
    (freshId : String) : Except String (ManagerState × Account) :=
  if s.accounts.length ≥ s.maxAccounts then
    .error ("Maximum " ++ toString s.maxAccounts ++ " accounts allowed")
  else
    let account : Account :=
      { id := freshId
        name := jsStrOr name ("Account " ++ toString (s.accounts.length + 1))
        phone := none
        createdAt := now
        client := none
        isReady := false
        isAuthenticated := false
        isInitializing := false
        qrCode := none }
    let accounts := mapSet s.accounts account
    let activeId := if accounts.length = 1 then some freshId else s.activeAccountId
    let s1 := { s with accounts := accounts, activeAccountId := activeId }
    .ok ({ s1 with disk := saveAccountsConfig s1 }, account)

/-- deleteAccount: throws on an unknown id; otherwise tears down the client
(errors swallowed), removes the entry, and — when the deleted account was
active — moves the pointer to the first remaining Map key or null, then
persists. -/
def deleteAccount (s : ManagerState) (accountId : String) :
    Except String ManagerState :=
  match getAccount s accountId with
  | none => .error "Account not found"
  | some _ =>
    let accounts := s.accounts.filter (fun a => a.id != accountId)
    let activeId :=
      if s.activeAccountId = some accountId then
        jsOptOr (accounts.head?.map (fun a => a.id))
      else s.activeAccountId
    let s1 := { s with accounts := accounts, activeAccountId := activeId }
    .ok { s1 with disk := saveAccountsConfig s1 }

/-- initializeAccount, synchronous kick-off portion: throws on an unknown
id; a logged no-op when the account is already initializing; otherwise sets
isInitializing, destroys any stale handle, installs the freshly constructed
client handle with its lifecycle callbacks wired, and starts the handshake.
The handshake itself completes asynchronously through the handler
transitions below (per the spec, switching returns once initialization has
been kicked off). The returned Bool records whether a new initialization
was actually started. The new handle is a parameter because its observable
behavior is decided by the automation layer. -/
def initializeAccount (s : ManagerState) (accountId : String)
    (newHandle : ClientHandle) : Except String (ManagerState × Bool) :=
  match getAccount s accountId with
  | none => .error "Account not found"
  | some account =>
    if account.isInitializing then
      .ok (s, false)
    else
      .ok ({ s with accounts := updateAccount s.accounts accountId (fun a =>
        { a with isInitializing := true, client := some newHandle }) }, true)

/-- switchAccount: throws on an unknown id; otherwise writes the config for
the previous account (a persistence call only — no field changes), moves
the active pointer, persists, and kicks off (re-)initialization exactly
when either no client handle exists and the account is not initializing, or
a handle exists but the account is neither ready nor initializing. Returns
the up-to-date account view and whether an initialization was started. -/
def switchAccount (s : ManagerState) (accountId : String)
    (newHandle : ClientHandle) : Except String (ManagerState × Account × Bool) :=
  match getAccount s accountId with
  | none => .error "Account not found"
  | some account =>
    let s0 :=
      match s.activeAccountId with
      | none => s
      | some prevId =>
        if prevId != "" && prevId != accountId && (getAccount s prevId).isSome then
          { s with disk := saveAccountsConfig s }
        else s
    let s1 := { s0 with activeAccountId := some accountId }
    let s2 := { s1 with disk := saveAccountsConfig s1 }
    if account.client.isNone && !account.isInitializing then
      match initializeAccount s2 accountId newHandle with
      | .error e => .error e
      | .ok (s3, started) =>
        match getAccount s3 accountId with
        | none => .error "Account not found"
        | some account3 => .ok (s3, account3, started)
    else if account.client.isSome && !account.isReady && !account.isInitializing then
      match initializeAccount s2 accountId newHandle with
      | .error e => .error e
      | .ok (s3, started) =>
        match getAccount s3 accountId with
        | none => .error "Account not found"
        | some account3 => .ok (s3, account3, started)
    else
      .ok (s2, account, false)

/-- getActiveAccount: null when the active pointer is falsy, else the Map
entry or null. -/
def getActiveAccount (s : ManagerState) : Option Account :=
  match s.activeAccountId with
  | none => none
  | some id => if id == "" then none else getAccount s id

/-- The account promotion performed by every readiness path: isReady set,
isInitializing cleared. -/
def setReadyFlags (accounts : List Account) (accountId : String) : List Account :=
  updateAccount accounts accountId (fun a =>
    { a with isReady := true, isInitializing := false })

/-- The chats cache window in milliseconds. -/
def chatsCacheDuration : Nat := 3000

/-- Whether the manager-wide chats cache is present and within its window.
JS computes now - cacheTime as a possibly negative number; with Nat
truncation a clock that ran backwards also reads as in-window, matching the
JS comparison outcome. -/
def cacheValid (s : ManagerState) (now : Nat) : Bool :=
  s.chatsCache.isSome && (now - s.chatsCacheTime < chatsCacheDuration)

/-- getChats: the degraded-mode chat fetch. Returns the fetched list, the
updated manager state, and the emitted events. Soft failure everywhere: no
active account, no client, or a not-yet-authenticated account give [];
page/capability/info problems give the last cached list if any, else [];
a cache hit within the window short-circuits the fetch; a successful fetch
refreshes the cache and, when the account was not yet ready, promotes it
and emits the ready event. The function is total — no path throws. -/
def getChats (s : ManagerState) (now : Nat) :
    List Chat × ManagerState × List Event :=
  match getActiveAccount s with
  | none => ([], s, [])
  | some account =>
    match account.client with
    | none => ([], s, [])
    | some client =>
      if !account.isReady && !account.isAuthenticated then ([], s, [])
      else if cacheValid s now then (s.chatsCache.getD [], s, [])
      else
        let fallback := s.chatsCache.getD []
        match client.pupPage with
        | none => (fallback, s, [])
        | some page =>
          match page.isClosedResult with
          | .err => (fallback, s, [])
          | .ok true => (fallback, s, [])
          | .ok false =>
            if !client.hasGetChats then (fallback, s, [])
            else
              match client.info with
              | .err => (fallback, s, [])
              | .ok none => (fallback, s, [])
              | .ok (some _) =>
                match client.getChatsResult with
                | .err => (fallback, s, [])
                | .ok chats =>
                  let s1 := { s with chatsCache := some chats, chatsCacheTime := now }
                  if !account.isReady then
                    ( chats
                    , { s1 with accounts := setReadyFlags s1.accounts account.id }
                    , [Event.ready account.id] )
                  else
                    (chats, s1, [])

/-- The retry cap of checkAndSetReady: 60 attempts of 5 seconds each. -/
def maxRetries : Nat := 60

/-- checkAndSetReady, one invocation of the readiness monitor. Returns the
updated state, the emitted events, and the rescheduled invocation (next
retry counter and delay in ms) when one was armed via setTimeout. Absent
account or an already-ready account return immediately. Every unsuccessful
branch (no client, no page, page closed or unreadable, getChats missing,
probe throw) reschedules only while the counter is below the cap. A probe
that resolves captures the phone from the info getter when available
(a throwing info getter lands in the catch and reschedules), promotes the
account, and emits the ready event. A resolved probe value is always an
array in this model, so the non-array reschedule branch of the source is
absorbed into the throw branch. -/
def checkAndSetReady (s : ManagerState) (accountId : String)
    (retryCount : Nat) : ManagerState × List Event × Option (Nat × Nat) :=
  match getAccount s accountId with
  | none => (s, [], none)
  | some account =>
    if account.isReady then (s, [], none)
    else
      let resched : Option (Nat × Nat) :=
        if retryCount < maxRetries then some (retryCount + 1, 5000) else none
      match account.client with
      | none => (s, [], resched)
      | some client =>
        match client.pupPage with
        | none => (s, [], resched)
        | some page =>
          match page.isClosedResult with
          | .err => (s, [], resched)
          | .ok true => (s, [], resched)
          | .ok false =>
            if !client.hasGetChats then (s, [], resched)
            else
              match client.getChatsResult with
              | .err => (s, [], resched)
              | .ok _ =>
                match client.info with
                | .err => (s, [], resched)
                | .ok widOpt =>
                  let s1 :=
                    match widOpt with
                    | some w =>
                      let su := { s with accounts := (updateAccount s.accounts accountId
                        (fun a => { a with phone := some w })) }
                      { su with disk := saveAccountsConfig su }
                    | none => s
                  ( { s1 with accounts := setReadyFlags s1.accounts accountId }
                  , [Event.ready accountId]
                  , none )

/-- JS falsiness of a nullable string. -/
def jsIsFalsy (o : Option String) : Bool :=
  match o with
  | none => true
  | some v => v == ""

/-- The part of the client ready handler that runs before the fixed 10 s
settling delay: marks the account authenticated, clears the QR challenge,
and best-effort captures the phone from the info getter (persisting on
success, swallowing a throw). -/
def onReadyPhase1 (s : ManagerState) (accountId : String) : ManagerState :=
  match getAccount s accountId with
  | none => s
  | some account =>
    let s1 := { s with accounts := updateAccount s.accounts accountId (fun a =>
      { a with isAuthenticated := true, qrCode := none }) }
    match account.client with
    | none => s1
    | some client =>
      match client.info with
      | .ok (some w) =>
        let s2 := { s1 with accounts := updateAccount s1.accounts accountId (fun a =>
          { a with phone := some w }) }
        { s2 with disk := saveAccountsConfig s2 }
      | _ => s1

/-- The part of the client ready handler that runs after the settling
delay: unconditionally sets isReady, clears isInitializing, and emits the
ready event — with no check of whether another path already promoted the
account in the meantime. -/
def onReadyPhase2 (s : ManagerState) (accountId : String) :
    ManagerState × List Event :=
  ( { s with accounts := setReadyFlags s.accounts accountId }
  , [Event.ready accountId] )

/-- The authenticated handler: marks the account authenticated, emits the
authenticated event, and arms the readiness monitor after a 20 s delay
(returned as the scheduled delay in ms). -/
def onAuthenticated (s : ManagerState) (accountId : String) :
    ManagerState × List Event × Option Nat :=
  ( { s with accounts := updateAccount s.accounts accountId (fun a =>
        { a with isAuthenticated := true }) }
  , [Event.authenticated accountId]
  , some 20000 )

/-- The inbound message handler: when the account is authenticated but not
yet ready, the message itself proves the session works, so the handler
promotes the account (backfilling the phone from the info getter when it
was falsy, swallowing a throw) and emits the ready event; the message event
is always emitted afterwards. -/
def onMessage (s : ManagerState) (accountId : String) :
    ManagerState × List Event :=
  match getAccount s accountId with
  | none => (s, [Event.message accountId])
  | some account =>
    if !account.isReady && account.isAuthenticated then
      let s1 := { s with accounts := setReadyFlags s.accounts accountId }
      let s2 :=
        if jsIsFalsy account.phone then
          match account.client with
          | none => s1
          | some client =>
            match client.info with
            | .ok (some w) =>
              let su := { s1 with accounts := (updateAccount s1.accounts accountId
                (fun a => { a with phone := some w })) }
              { su with disk := saveAccountsConfig su }
            | _ => s1
        else s1
      (s2, [Event.ready accountId, Event.message accountId])
    else
      (s, [Event.message accountId])

/-- JS Map.set on the deleted-message ledger. -/
def dmSet (m : List (String × DeletedMessageRecord)) (k : String)
    (v : DeletedMessageRecord) : List (String × DeletedMessageRecord) :=
  if m.any (fun p => p.1 == k) then
    m.map (fun p => if p.1 == k then (k, v) else p)
  else
    m ++ [(k, v)]

/-- saveDeletedMessage: Map.set keyed by the message id, then a full-file
rewrite of the ledger. -/
def saveDeletedMessage (s : ManagerState) (messageData : DeletedMessageRecord) :
    ManagerState :=
  let dm := dmSet s.deletedMessages messageData.id messageData
  { s with deletedMessages := dm, deletedDisk := dm }

/-- getDeletedMessagesForChat: walks the ledger in stored order and collects
the records whose chatId matches; touches nothing but the ledger. -/
def getDeletedMessagesForChat (s : ManagerState) (chatId : String) :
    List DeletedMessageRecord :=
  s.deletedMessages.foldl
    (fun result p => if p.2.chatId == chatId then result ++ [p.2] else result) []

/-- The legacy single-account client, reduced to the fields its readiness
check observes. errIsUpdate records whether a thrown getChats error message
contains the known stores-still-loading signature. -/
structure WClientState where
  clientPresent : Bool
  isReady : Bool
  isAuthenticated : Bool
  qrCode : Option String
  getChatsResult : JsResult (List Chat)
  errIsUpdate : Bool
  deriving DecidableEq, Repr

/-- One verifyStores step of the legacy startReadinessCheck loop: a no-op
once ready or without an authenticated client; otherwise the attempt
counter is incremented, a resolving probe promotes immediately, and a
throwing probe reschedules after 5 s while fewer than 10 attempts have
run — and on the last attempt force-promotes to ready anyway. Returns the
state, whether the ready event was emitted, and the rescheduled delay. -/
def verifyStores (w : WClientState) (attempts : Nat) :
    WClientState × Bool × Option Nat :=
  if w.isReady then (w, false, none)
  else if !w.clientPresent || !w.isAuthenticated then (w, false, none)
  else
    let attempts1 := attempts + 1
    match w.getChatsResult with
    | .ok _ => ({ w with isReady := true, qrCode := none }, true, none)
    | .err =>
      if attempts1 < 10 then (w, false, some 5000)
      else ({ w with isReady := true, qrCode := none }, true, none)

theorem mapSet_length (accounts : List Account) (a : Account) :
    (mapSet accounts a).length ≤ accounts.length + 1 := by
  unfold mapSet
  split
  · simp
  · simp

theorem createAccount_ok_length {s : ManagerState} {name : Option String}
    {now : Nat} {freshId : String} {s' : ManagerState} {acc : Account}
    (h : createAccount s name now freshId = .ok (s', acc)) :
    s'.accounts.length ≤ s.accounts.length + 1 ∧
    s.accounts.length < s.maxAccounts ∧
    s'.maxAccounts = s.maxAccounts := by
  simp only [createAccount] at h
  split at h
  · cases h
  · rename_i hge
    simp only [Except.ok.injEq, Prod.mk.injEq] at h
    obtain ⟨hs, -⟩ := h
    subst hs
    exact ⟨mapSet_length _ _, Nat.lt_of_not_le hge, rfl⟩

/-- Replaying a list of createAccount requests, keeping the old state when a
request throws (as the HTTP layer does). -/
def applyCreates (s : ManagerState)
    (ops : List (Option String × Nat × String)) : ManagerState :=
  ops.foldl (fun st op =>
    match createAccount st op.1 op.2.1 op.2.2 with
    | .ok (st1, _) => st1
    | .error _ => st) s

theorem applyCreates_bounded (ops : List (Option String × Nat × String)) :
    ∀ s : ManagerState, s.accounts.length ≤ s.maxAccounts →
      (applyCreates s ops).accounts.length ≤ s.maxAccounts ∧
      (applyCreates s ops).maxAccounts = s.maxAccounts := by
  induction ops with
  | nil => exact fun s h => ⟨h, rfl⟩
  | cons op rest ih =>
    intro s h
    have hstep : applyCreates s (op :: rest) =
        applyCreates (match createAccount s op.1 op.2.1 op.2.2 with
          | .ok (st1, _) => st1
          | .error _ => s) rest := rfl
    cases hc : createAccount s op.1 op.2.1 op.2.2 with
    | error e =>
      have hred : applyCreates s (op :: rest) = applyCreates s rest := by
        rw [hstep, hc]
      rw [hred]
      exact ih s h
    | ok pair =>
      obtain ⟨st1, acc⟩ := pair
      have hred : applyCreates s (op :: rest) = applyCreates st1 rest := by
        rw [hstep, hc]
      rw [hred]
      obtain ⟨hl, hlt, hm⟩ := createAccount_ok_length hc
      have h1 : st1.accounts.length ≤ st1.maxAccounts := by omega
      obtain ⟨hb, hmm⟩ := ih st1 h1
      exact ⟨by omega, by omega⟩

/-- C1: under any sequence of createAccount operations the account count
never exceeds maxAccounts; a create issued when the count is already at
maxAccounts throws the capacity error and leaves the state — account set
and persisted store alike — unchanged; and the manager is constructed with
maxAccounts = 10. -/
theorem spec_C1 (s : ManagerState) (ops : List (Option String × Nat × String))
    (name : Option String) (now : Nat) (freshId : String) :
    (s.accounts.length ≤ s.maxAccounts →
      (applyCreates s ops).accounts.length ≤ s.maxAccounts)
    ∧ (s.accounts.length ≥ s.maxAccounts →
        createAccount s name now freshId =
          .error ("Maximum " ++ toString s.maxAccounts ++ " accounts allowed")
        ∧ applyCreates s [(name, now, freshId)] = s)
    ∧ initialManager.maxAccounts = 10 := by
  refine ⟨fun h => (applyCreates_bounded ops s h).1, fun h => ?_, rfl⟩
  have he : createAccount s name now freshId =
      .error ("Maximum " ++ toString s.maxAccounts ++ " accounts allowed") := by
    unfold createAccount
    rw [if_pos h]
  refine ⟨he, ?_⟩
  have : applyCreates s [(name, now, freshId)] =
      (match createAccount s name now freshId with
        | .ok (st1, _) => st1
        | .error _ => s) := rfl
  rw [this, he]

/-- Concrete creation requests driving the capacity bound. -/
def c1Ops (n : Nat) : List (Option String × Nat × String) :=
  (List.range n).map (fun i => (some "A", i, "acc" ++ toString i))

theorem spec_C1_witness :
    (applyCreates initialManager (c1Ops 11)).accounts.length ≤
        initialManager.maxAccounts
    ∧ createAccount (applyCreates initialManager (c1Ops 10)) (some "B") 99 "accX"
        = .error ("Maximum " ++
            toString (applyCreates initialManager (c1Ops 10)).maxAccounts ++
            " accounts allowed")
    ∧ applyCreates (applyCreates initialManager (c1Ops 10)) [(some "B", 99, "accX")]
        = applyCreates initialManager (c1Ops 10) :=
  ⟨(spec_C1 initialManager (c1Ops 11) none 0 "x").1 (by decide),
   ((spec_C1 (applyCreates initialManager (c1Ops 10)) [] (some "B") 99 "accX").2.1
      (by decide)).1,
   ((spec_C1 (applyCreates initialManager (c1Ops 10)) [] (some "B") 99 "accX").2.1
      (by decide)).2⟩

theorem dmSet_key_entries (m : List (String × DeletedMessageRecord)) (k : String)
    (v : DeletedMessageRecord) :
    ∀ p ∈ dmSet m k v, p.1 == k → p = (k, v) := by
  unfold dmSet
  split
  · intro p hp hk
    simp only [List.mem_map] at hp
    obtain ⟨q, hq, rfl⟩ := hp
    by_cases hqk : (q.1 == k) = true
    · simp [hqk]
    · rw [if_neg hqk] at hk ⊢
      exact absurd hk hqk
  · rename_i hany
    intro p hp hk
    rcases List.mem_append.mp hp with hm | hm
    · exact absurd (List.any_eq_true.mpr ⟨p, hm, hk⟩) hany
    · simpa using hm

theorem dmSet_mem_key (m : List (String × DeletedMessageRecord)) (k : String)
    (v : DeletedMessageRecord) :
    (dmSet m k v).any (fun p => p.1 == k) = true := by
  rw [List.any_eq_true]
  refine ⟨(k, v), ?_, by simp⟩
  unfold dmSet
  split
  · rename_i hany
    rw [List.any_eq_true] at hany
    obtain ⟨p, hp, hpk⟩ := hany
    rw [List.mem_map]
    exact ⟨p, hp, by simp [hpk]⟩
  · simp

theorem map_replace_eq_self (l : List (String × DeletedMessageRecord)) (k : String)
    (v : DeletedMessageRecord) (hall : ∀ p ∈ l, p.1 == k → p = (k, v)) :
    l.map (fun p => if p.1 == k then (k, v) else p) = l := by
  induction l with
  | nil => rfl
  | cons p rest ih =>
    simp only [List.map_cons]
    have h1 : (if p.1 == k then (k, v) else p) = p := by
      by_cases hpk : (p.1 == k) = true
      · rw [if_pos hpk, hall p (List.mem_cons_self p rest) hpk]
      · rw [if_neg hpk]
    rw [h1, ih (fun q hq hqk => hall q (List.mem_cons_of_mem p hq) hqk)]

theorem dmSet_idem (m : List (String × DeletedMessageRecord)) (k : String)
    (v : DeletedMessageRecord) :
    dmSet (dmSet m k v) k v = dmSet m k v := by
  have hany := dmSet_mem_key m k v
  have hall := dmSet_key_entries m k v
  conv_lhs => rw [dmSet]
  rw [if_pos hany]
  exact map_replace_eq_self _ _ _ hall

theorem dmSet_length_stable (m : List (String × DeletedMessageRecord)) (k : String)
    (v : DeletedMessageRecord) (h : m.any (fun p => p.1 == k) = true) :
    (dmSet m k v).length = m.length := by
  unfold dmSet
  rw [if_pos h]
  exact List.length_map _ _

theorem foldl_collect (c : String) (l : List (String × DeletedMessageRecord)) :
    ∀ init : List DeletedMessageRecord,
      l.foldl (fun result p => if p.2.chatId == c then result ++ [p.2] else result) init
        = init ++ (l.map Prod.snd).filter (fun r => r.chatId == c) := by
  induction l with
  | nil => intro init; simp
  | cons p rest ih =>
    intro init
    simp only [List.foldl_cons, List.map_cons, List.filter_cons]
    cases hp : p.2.chatId == c with
    | true => rw [if_pos (by simp [hp]), ih, List.append_assoc]; simp [hp]
    | false => rw [if_neg (by simp [hp]), ih]; simp [hp]

/-- C8: re-saving a deleted-message record with an id already in the ledger
replaces the entry rather than duplicating it (re-applying the same
retraction is idempotent and keeps the ledger length), and
getDeletedMessagesForChat is exactly the chatId filter over the ledger —
in particular it depends only on the ledger, not on any session or client
state. -/
theorem spec_C8 (s s' : ManagerState) (r : DeletedMessageRecord) (chatId : String) :
    saveDeletedMessage (saveDeletedMessage s r) r = saveDeletedMessage s r
    ∧ (s.deletedMessages.any (fun p => p.1 == r.id) = true →
        (saveDeletedMessage s r).deletedMessages.length = s.deletedMessages.length)
    ∧ getDeletedMessagesForChat s chatId
        = (s.deletedMessages.map Prod.snd).filter (fun rec0 => rec0.chatId == chatId)
    ∧ (s.deletedMessages = s'.deletedMessages →
        getDeletedMessagesForChat s chatId = getDeletedMessagesForChat s' chatId) := by
  refine ⟨?_, fun h => ?_, ?_, fun h => ?_⟩
  · simp only [saveDeletedMessage, dmSet_idem]
  · simp only [saveDeletedMessage]
    exact dmSet_length_stable _ _ _ h
  · unfold getDeletedMessagesForChat
    rw [foldl_collect chatId s.deletedMessages []]
    exact List.nil_append _
  · unfold getDeletedMessagesForChat
    rw [h]

/-- A concrete retraction record for the witnesses. -/
def exRec : DeletedMessageRecord :=
  { id := "msg_1", chatId := "123@c.us", body := "hello", timestamp := 5
    fromMe := false, author := none, hasMedia := false, deletedAt := 10
    originalType := "chat", accountId := "a1" }

/-- A manager state already holding exRec in its ledger. -/
def exS8 : ManagerState :=
  { initialManager with
      deletedMessages := [("msg_1", exRec)], deletedDisk := [("msg_1", exRec)] }

theorem spec_C8_witness :
    saveDeletedMessage (saveDeletedMessage exS8 exRec) exRec
        = saveDeletedMessage exS8 exRec
    ∧ (saveDeletedMessage exS8 exRec).deletedMessages.length
        = exS8.deletedMessages.length
    ∧ getDeletedMessagesForChat exS8 "123@c.us"
        = (exS8.deletedMessages.map Prod.snd).filter
            (fun rec0 => rec0.chatId == "123@c.us")
    ∧ getDeletedMessagesForChat exS8 "123@c.us"
        = getDeletedMessagesForChat exS8 "123@c.us" :=
  ⟨(spec_C8 exS8 exS8 exRec "123@c.us").1,
   (spec_C8 exS8 exS8 exRec "123@c.us").2.1 (by decide),
   (spec_C8 exS8 exS8 exRec "123@c.us").2.2.1,
   (spec_C8 exS8 exS8 exRec "123@c.us").2.2.2 rfl⟩

/-- C9: reloading the snapshot written by saveAccountsConfig reconstructs
the same account ids, names, phones, and creation timestamps in the same
stored order, and the same active-account pointer, while every transient
session field restarts at its uninitialized default. The hypotheses rule
out empty-string phones and an empty-string active id, which the JS
(x || null) coercion on reload would collapse to null; the generated ids
and captured wid.user phones are never empty. -/
theorem spec_C9 (s : ManagerState)
    (hactive : s.activeAccountId ≠ some "")
    (hphone : ∀ a ∈ s.accounts, a.phone ≠ some "") :
    ((loadAccountsConfig (saveAccountsConfig s)).accounts.map
        (fun a => (a.id, a.name, a.phone, a.createdAt))
      = s.accounts.map (fun a => (a.id, a.name, a.phone, a.createdAt)))
    ∧ (loadAccountsConfig (saveAccountsConfig s)).activeAccountId
        = s.activeAccountId
    ∧ ∀ a ∈ (loadAccountsConfig (saveAccountsConfig s)).accounts,
        a.client = none ∧ a.isReady = false ∧ a.isAuthenticated = false ∧
        a.isInitializing = false ∧ a.qrCode = none := by
  refine ⟨?_, ?_, ?_⟩
  · simp only [loadAccountsConfig, saveAccountsConfig, List.map_map]
    apply List.map_congr_left
    intro a ha
    simp only [Function.comp_apply]
    have hp : a.phone ≠ some "" := hphone a ha
    cases hph : a.phone with
    | none => simp [jsOptOr]
    | some v =>
      have hv : v ≠ "" := fun hv0 => hp (by rw [hph, hv0])
      simp [jsOptOr, hv]
  · simp only [loadAccountsConfig, saveAccountsConfig]
    cases hav : s.activeAccountId with
    | none => simp [jsOptOr]
    | some v =>
      have hv : v ≠ "" := fun hv0 => hactive (by rw [hav, hv0])
      simp [jsOptOr, hv]
  · intro a ha
    simp only [loadAccountsConfig, List.mem_map] at ha
    obtain ⟨x, -, rfl⟩ := ha
    exact ⟨rfl, rfl, rfl, rfl, rfl⟩

/-- A populated manager state for the round-trip witness. -/
def exS9 : ManagerState :=
  { initialManager with
      accounts :=
        [ { id := "a1", name := "Sales", phone := some "15551234567"
            createdAt := 100, client := none, isReady := true
            isAuthenticated := true, isInitializing := false, qrCode := none }
        , { id := "a2", name := "Support", phone := none, createdAt := 200
            client := none, isReady := false, isAuthenticated := false
            isInitializing := true, qrCode := some "QR" } ]
      activeAccountId := some "a1" }

theorem spec_C9_witness :
    ((loadAccountsConfig (saveAccountsConfig exS9)).accounts.map
        (fun a => (a.id, a.name, a.phone, a.createdAt))
      = exS9.accounts.map (fun a => (a.id, a.name, a.phone, a.createdAt)))
    ∧ (loadAccountsConfig (saveAccountsConfig exS9)).activeAccountId
        = exS9.activeAccountId
    ∧ ∀ a ∈ (loadAccountsConfig (saveAccountsConfig exS9)).accounts,
        a.client = none ∧ a.isReady = false ∧ a.isAuthenticated = false ∧
        a.isInitializing = false ∧ a.qrCode = none :=
  spec_C9 exS9 (by decide) (by decide)

/-- The Map keys, in stored order. -/
def accountIds (s : ManagerState) : List String :=
  s.accounts.map (fun a => a.id)

/-- How many accounts the manager currently reports as active (isActive is
the derived comparison with the active pointer). -/
def countActive (s : ManagerState) : Nat :=
  s.accounts.countP (fun a => s.activeAccountId == some a.id)

theorem countP_active_le_one (l : List Account) (act : Option String)
    (h : (l.map (fun a => a.id)).Nodup) :
    l.countP (fun a => act == some a.id) ≤ 1 := by
  induction l with
  | nil => simp
  | cons a rest ih =>
    simp only [List.map_cons, List.nodup_cons] at h
    obtain ⟨hna, hrest⟩ := h
    cases hb : act == some a.id with
    | false =>
      simp only [List.countP_cons, hb, if_false]
      simpa using ih hrest
    | true =>
      simp only [List.countP_cons, hb, if_true]
      have hz : rest.countP (fun a2 => act == some a2.id) = 0 := by
        rw [List.countP_eq_zero]
        intro b hbmem hb2
        have hact : act = some a.id := eq_of_beq hb
        have hids : a.id = b.id := by
          rw [hact] at hb2
          exact Option.some.inj (eq_of_beq hb2)
        exact hna (hids ▸ List.mem_map_of_mem (fun x => x.id) hbmem)
      omega

theorem countP_active_eq_one (l : List Account) (y : String)
    (h : (l.map (fun a => a.id)).Nodup) (hy : y ∈ l.map (fun a => a.id)) :
    l.countP (fun a => (some y : Option String) == some a.id) = 1 := by
  induction l with
  | nil => simp at hy
  | cons a rest ih =>
    simp only [List.map_cons, List.nodup_cons] at h
    obtain ⟨hna, hrest⟩ := h
    rcases List.mem_cons.mp hy with hy1 | hy2
    · have hy1' : y = a.id := hy1
      simp only [List.countP_cons]
      have hz : rest.countP (fun a2 => (some y : Option String) == some a2.id) = 0 := by
        rw [List.countP_eq_zero]
        intro b hbmem hb2
        have hyb : y = b.id := Option.some.inj (eq_of_beq hb2)
        have hmem : b.id ∈ List.map (fun x => x.id) rest :=
          List.mem_map_of_mem (fun x => x.id) hbmem
        rw [← hyb, hy1'] at hmem
        exact hna hmem
      rw [hz, show ((some y : Option String) == some a.id) = true from by simp [hy1']]
      simp
    · have hyne : y ≠ a.id := fun he => hna (he ▸ hy2)
      simp only [List.countP_cons, show ((some y : Option String) == some a.id) = false
        from by simp [hyne], if_false]
      simpa using ih hrest hy2

theorem createAccount_active_of_nonempty {s : ManagerState} {name : Option String}
    {now : Nat} {freshId : String} {s1 : ManagerState} {acc : Account}
    (h : createAccount s name now freshId = .ok (s1, acc))
    (hne : s.accounts ≠ [])
    (hfresh : ∀ a ∈ s.accounts, a.id ≠ freshId) :
    s1.activeAccountId = s.activeAccountId := by
  simp only [createAccount] at h
  split at h
  · cases h
  · simp only [Except.ok.injEq, Prod.mk.injEq] at h
    obtain ⟨hs, -⟩ := h
    subst hs
    have hany : (s.accounts.any (fun a => a.id == freshId)) = false := by
      rw [Bool.eq_false_iff]
      intro hx
      obtain ⟨a, ha, hak⟩ := List.any_eq_true.mp hx
      exact hfresh a ha (by simpa using hak)
    split
    · rename_i hlen
      exfalso
      unfold mapSet at hlen
      rw [if_neg (by simp [hany])] at hlen
      simp only [List.length_append, List.length_cons, List.length_nil] at hlen
      have hz : s.accounts.length = 0 := by omega
      exact hne (List.length_eq_zero.mp hz)
    · rfl

theorem createAccount_active_of_empty {s : ManagerState} {name : Option String}
    {now : Nat} {freshId : String} {s1 : ManagerState} {acc : Account}
    (h : createAccount s name now freshId = .ok (s1, acc))
    (hemp : s.accounts = []) :
    s1.activeAccountId = some freshId := by
  simp only [createAccount] at h
  split at h
  · cases h
  · simp only [Except.ok.injEq, Prod.mk.injEq] at h
    obtain ⟨hs, -⟩ := h
    subst hs
    show (if (mapSet s.accounts _).length = 1 then some freshId
          else s.activeAccountId) = some freshId
    rw [hemp]
    rfl

theorem deleteAccount_shape {s : ManagerState} {accountId : String}
    {s2 : ManagerState} (h : deleteAccount s accountId = .ok s2) :
    s2.accounts = s.accounts.filter (fun a => a.id != accountId) ∧
    s2.activeAccountId =
      (if s.activeAccountId = some accountId then
        jsOptOr (((s.accounts.filter (fun a => a.id != accountId)).head?).map
          (fun a => a.id))
      else s.activeAccountId) := by
  simp only [deleteAccount] at h
  split at h
  · cases h
  · simp only [Except.ok.injEq] at h
    subst h
    exact ⟨rfl, rfl⟩

/-- C2: at most one account is active at any time (the active pointer
singles out at most one Map entry when ids are distinct); createAccount
makes the new account active exactly when it is the first one; deleting the
active account moves the pointer to the first remaining account in stored
order, or to null when none remain; and deleting the active account while
others remain leaves exactly one active account. -/
theorem spec_C2 (s s1 s2 : ManagerState) (name : Option String) (now : Nat)
    (freshId accountId : String) (acc : Account) :
    ((accountIds s).Nodup → countActive s ≤ 1)
    ∧ (createAccount s name now freshId = .ok (s1, acc) → s.accounts ≠ [] →
        (∀ a ∈ s.accounts, a.id ≠ freshId) →
        s1.activeAccountId = s.activeAccountId)
    ∧ (createAccount s name now freshId = .ok (s1, acc) → s.accounts = [] →
        s1.activeAccountId = some freshId)
    ∧ (deleteAccount s accountId = .ok s2 → s.activeAccountId = some accountId →
        s2.activeAccountId = jsOptOr
          (((s.accounts.filter (fun a => a.id != accountId)).head?).map
            (fun a => a.id)))
    ∧ (deleteAccount s accountId = .ok s2 → s.activeAccountId = some accountId →
        s2.accounts ≠ [] → (accountIds s).Nodup →
        (∀ a ∈ s.accounts, a.id ≠ "") →
        countActive s2 = 1) := by
  refine ⟨fun h => countP_active_le_one s.accounts s.activeAccountId h,
          fun h hne hfresh => createAccount_active_of_nonempty h hne hfresh,
          fun h hemp => createAccount_active_of_empty h hemp,
          fun h hact => ?_,
          fun h hact hne hnd hids => ?_⟩
  · obtain ⟨-, hactive2⟩ := deleteAccount_shape h
    rw [hactive2, if_pos hact]
  · obtain ⟨hacc2, hactive2⟩ := deleteAccount_shape h
    rw [if_pos hact] at hactive2
    cases hcl : s.accounts.filter (fun a => a.id != accountId) with
    | nil => exact absurd (hacc2.trans hcl) hne
    | cons b rest =>
      have hbmem : b ∈ s.accounts :=
        List.mem_of_mem_filter (hcl ▸ List.mem_cons_self b rest)
      have hbid : b.id ≠ "" := hids b hbmem
      have hactive3 : s2.activeAccountId = some b.id := by
        rw [hactive2, hcl]
        simp [jsOptOr, hbid]
      have hsub : List.Sublist (s.accounts.filter (fun a => a.id != accountId))
          s.accounts :=
        List.filter_sublist s.accounts
      have hndf : ((s.accounts.filter (fun a => a.id != accountId)).map
          (fun a => a.id)).Nodup :=
        List.Nodup.sublist (hsub.map (fun a => a.id)) hnd
      unfold countActive
      rw [hacc2, hactive3]
      apply countP_active_eq_one _ _ hndf
      rw [hcl]
      simp

/-- The state after creating a third account on exS9. -/
def exC2s1 : ManagerState :=
  match createAccount exS9 (some "C") 300 "a3" with
  | .ok (st, _) => st
  | .error _ => exS9

/-- The account returned by that create. -/
def exC2acc : Account :=
  match createAccount exS9 (some "C") 300 "a3" with
  | .ok (_, a) => a
  | .error _ =>
    { id := "", name := "", phone := none, createdAt := 0, client := none
      isReady := false, isAuthenticated := false, isInitializing := false
      qrCode := none }

/-- The state after creating the first account on an empty manager. -/
def exC2s0 : ManagerState :=
  match createAccount initialManager (some "First") 1 "a0" with
  | .ok (st, _) => st
  | .error _ => initialManager

/-- The account returned by the first create. -/
def exC2acc0 : Account :=
  match createAccount initialManager (some "First") 1 "a0" with
  | .ok (_, a) => a
  | .error _ =>
    { id := "", name := "", phone := none, createdAt := 0, client := none
      isReady := false, isAuthenticated := false, isInitializing := false
      qrCode := none }

/-- The state after deleting the active account of exS9. -/
def exC2s2 : ManagerState :=
  match deleteAccount exS9 "a1" with
  | .ok st => st
  | .error _ => exS9

theorem spec_C2_witness :
    countActive exS9 ≤ 1
    ∧ exC2s1.activeAccountId = exS9.activeAccountId
    ∧ exC2s0.activeAccountId = some "a0"
    ∧ exC2s2.activeAccountId = jsOptOr
        (((exS9.accounts.filter (fun a => a.id != "a1")).head?).map (fun a => a.id))
    ∧ countActive exC2s2 = 1 :=
  ⟨(spec_C2 exS9 exC2s1 exC2s2 (some "C") 300 "a3" "a1" exC2acc).1 (by decide),
   (spec_C2 exS9 exC2s1 exC2s2 (some "C") 300 "a3" "a1" exC2acc).2.1
     rfl (by decide) (by decide),
   (spec_C2 initialManager exC2s0 exC2s2 (some "First") 1 "a0" "a1" exC2acc0).2.2.1
     rfl rfl,
   (spec_C2 exS9 exC2s1 exC2s2 (some "C") 300 "a3" "a1" exC2acc).2.2.2.1
     rfl rfl,
   (spec_C2 exS9 exC2s1 exC2s2 (some "C") 300 "a3" "a1" exC2acc).2.2.2.2
     rfl rfl (by decide) (by decide) (by decide)⟩

/-- Whether one monitor probe of this account would succeed: client and
page present, the page open and readable, getChats available, the probe
resolving, and the info getter not throwing. -/
def probeSucceeds (account : Account) : Bool :=
  match account.client with
  | none => false
  | some client =>
    match client.pupPage with
    | none => false
    | some page =>
      match page.isClosedResult with
      | .ok false =>
        client.hasGetChats &&
        (match client.getChatsResult with
         | .ok _ => true
         | .err => false) &&
        (match client.info with
         | .err => false
         | .ok _ => true)
      | _ => false

/-- C5 (amended): the manager readiness monitor reschedules an unsuccessful
probe only while the retry counter is below the 60-attempt cap, always at
the fixed 5000 ms interval, and on exhausting the cap it stops with the
state untouched — no promotion, no ready event (no force-promotion). The
legacy single-account monitor is the one that force-promotes, after its own
10-attempt cap. -/
theorem spec_C5 (s : ManagerState) (accountId : String) (account : Account)
    (n : Nat) (w : WClientState) :
    (getAccount s accountId = some account → account.isReady = false →
      probeSucceeds account = false →
      checkAndSetReady s accountId n =
        (s, [], if n < maxRetries then some (n + 1, 5000) else none))
    ∧ (w.isReady = false → w.clientPresent = true → w.isAuthenticated = true →
        w.getChatsResult = .err →
        verifyStores w n =
          (if n + 1 < 10 then (w, false, some 5000)
           else ({ w with isReady := true, qrCode := none }, true, none))) := by
  constructor
  · intro hacc hready hprobe
    unfold probeSucceeds at hprobe
    cases hc : account.client with
    | none => simp [checkAndSetReady, hacc, hready, hc]
    | some client =>
      simp only [hc] at hprobe
      cases hp : client.pupPage with
      | none => simp [checkAndSetReady, hacc, hready, hc, hp]
      | some page =>
        simp only [hp] at hprobe
        cases hcl : page.isClosedResult with
        | err => simp [checkAndSetReady, hacc, hready, hc, hp, hcl]
        | ok closed =>
          cases closed with
          | true => simp [checkAndSetReady, hacc, hready, hc, hp, hcl]
          | false =>
            simp only [hcl] at hprobe
            cases hg : client.hasGetChats with
            | false => simp [checkAndSetReady, hacc, hready, hc, hp, hcl, hg]
            | true =>
              cases hgc : client.getChatsResult with
              | ok chats =>
                cases hi : client.info with
                | ok widOpt => simp [hg, hgc, hi] at hprobe
                | err => simp [checkAndSetReady, hacc, hready, hc, hp, hcl, hg, hgc, hi]
              | err => simp [checkAndSetReady, hacc, hready, hc, hp, hcl, hg, hgc]
  · intro hready hclient hauth hgc
    simp [verifyStores, hready, hclient, hauth, hgc]

/-- The account of the exhaustion counterexample: authenticated, still
initializing, with no client handle, so no probe can succeed. -/
def exC5acc : Account :=
  { id := "a1", name := "A", phone := none, createdAt := 1, client := none
    isReady := false, isAuthenticated := true, isInitializing := true
    qrCode := none }

/-- A manager holding only that account. -/
def exC5 : ManagerState :=
  { initialManager with accounts := [exC5acc], activeAccountId := some "a1" }

/-- C5 counterexample: at the 60th retry with the probe still failing, the
monitor neither promotes the session nor emits a ready event nor
reschedules — the state is returned untouched and the account stays
non-ready, contradicting the claimed force-promotion on exhaustion. -/
theorem spec_C5_cex :
    checkAndSetReady exC5 "a1" 60 = (exC5, [], none)
    ∧ (getAccount exC5 "a1").map (fun a => a.isReady) = some false
    ∧ (getAccount exC5 "a1").map (fun a => a.isInitializing) = some true := by
  refine ⟨by decide, by decide, by decide⟩

/-- The legacy client state for the force-promotion conjunct. -/
def exW : WClientState :=
  { clientPresent := true, isReady := false, isAuthenticated := true
    qrCode := none, getChatsResult := .err, errIsUpdate := true }

theorem spec_C5_witness :
    checkAndSetReady exC5 "a1" 0 =
      (exC5, [], if 0 < maxRetries then some (0 + 1, 5000) else none)
    ∧ verifyStores exW 9 =
        (if 9 + 1 < 10 then (exW, false, some 5000)
         else ({ exW with isReady := true, qrCode := none }, true, none)) :=
  ⟨(spec_C5 exC5 "a1" exC5acc 0 exW).1 rfl rfl (by decide),
   (spec_C5 exC5 "a1" exC5acc 9 exW).2 rfl rfl rfl rfl⟩

/-- The page-side failure class of getChats: page handle absent, the
isClosed call throwing or reporting closed, or the getChats capability
missing. -/
def pageUnusable (client : ClientHandle) : Bool :=
  match client.pupPage with
  | none => true
  | some page =>
    match page.isClosedResult with
    | .ok false => !client.hasGetChats
    | _ => true

/-- C3 (amended): getChats is total (it never throws) and fails softly:
with no active account, no client handle, or an account that is neither
ready nor authenticated it returns the empty list; when the browser page is
absent, closed, unreadable, or missing the getChats capability it returns
the last cached chat list when one exists and the empty list otherwise —
so in those states the result is [] only when no cache is present. -/
theorem spec_C3 (s : ManagerState) (now : Nat) :
    (getActiveAccount s = none → getChats s now = ([], s, []))
    ∧ (∀ account, getActiveAccount s = some account → account.client = none →
        getChats s now = ([], s, []))
    ∧ (∀ account, getActiveAccount s = some account →
        account.isReady = false → account.isAuthenticated = false →
        getChats s now = ([], s, []))
    ∧ (∀ account client, getActiveAccount s = some account →
        account.client = some client →
        (account.isReady || account.isAuthenticated) = true →
        cacheValid s now = false →
        pageUnusable client = true →
        getChats s now = (s.chatsCache.getD [], s, [])) := by
  refine ⟨fun h => by simp [getChats, h],
          fun account h hc => by simp [getChats, h, hc],
          fun account h hr ha => ?_,
          fun account client h hc hor hcache hpage => ?_⟩
  · cases hcl : account.client with
    | none => simp [getChats, h, hcl]
    | some client => simp [getChats, h, hcl, hr, ha]
  · have hguard : (!account.isReady && !account.isAuthenticated) = false := by
      cases hb1 : account.isReady <;> cases hb2 : account.isAuthenticated <;>
        simp_all
    unfold pageUnusable at hpage
    cases hp : client.pupPage with
    | none => simp [getChats, h, hc, hguard, hcache, hp]
    | some page =>
      simp only [hp] at hpage
      cases hpc : page.isClosedResult with
      | err => simp [getChats, h, hc, hguard, hcache, hp, hpc]
      | ok b =>
        cases b with
        | true => simp [getChats, h, hc, hguard, hcache, hp, hpc]
        | false =>
          simp only [hpc] at hpage
          have hg : client.hasGetChats = false := by simpa using hpage
          simp [getChats, h, hc, hguard, hcache, hp, hpc, hg]

/-- A client whose page handle is gone (browser torn down mid-session). -/
def exC3client : ClientHandle :=
  { handleId := 1, pupPage := none, hasGetChats := true
    info := .ok (some "15551234567"), getChatsResult := .ok ["fresh"] }

/-- Active, authenticated account with that client, and a stale non-empty
manager-wide cache from an earlier fetch. -/
def exC3 : ManagerState :=
  { initialManager with
      accounts := [ { id := "a1", name := "A", phone := none, createdAt := 1
                      client := some exC3client, isReady := false
                      isAuthenticated := true, isInitializing := true
                      qrCode := none } ]
      activeAccountId := some "a1"
      chatsCache := some ["stale"]
      chatsCacheTime := 0 }

/-- C3 counterexample: the active account's browser page is absent (one of
the states in which the claim demands an empty-list result) and the cache
window has long expired, yet getChats returns the stale cached list
["stale"], not []. -/
theorem spec_C3_cex :
    exC3client.pupPage = none
    ∧ cacheValid exC3 5000 = false
    ∧ (getChats exC3 5000).1 = ["stale"]
    ∧ (["stale"] : List Chat) ≠ [] := by
  refine ⟨rfl, by decide, by decide, by decide⟩

/-- A never-authenticated account with a live handle, for the third
conjunct of the C3 witness. -/
def exC3b : ManagerState :=
  { initialManager with
      accounts := [ { id := "b1", name := "B", phone := none, createdAt := 1
                      client := some exC3client, isReady := false
                      isAuthenticated := false, isInitializing := true
                      qrCode := none } ]
      activeAccountId := some "b1" }

theorem spec_C3_witness :
    getChats initialManager 0 = ([], initialManager, [])
    ∧ getChats exC5 0 = ([], exC5, [])
    ∧ getChats exC3b 0 = ([], exC3b, [])
    ∧ getChats exC3 5000 = (exC3.chatsCache.getD [], exC3, []) :=
  ⟨(spec_C3 initialManager 0).1 rfl,
   (spec_C3 exC5 0).2.1 exC5acc rfl rfl,
   (spec_C3 exC3b 0).2.2.1
     { id := "b1", name := "B", phone := none, createdAt := 1
       client := some exC3client, isReady := false, isAuthenticated := false
       isInitializing := true, qrCode := none } rfl rfl rfl,
   (spec_C3 exC3 5000).2.2.2
     { id := "a1", name := "A", phone := none, createdAt := 1
       client := some exC3client, isReady := false, isAuthenticated := true
       isInitializing := true, qrCode := none }
     exC3client rfl rfl (by decide) (by decide) (by decide)⟩

theorem getAccountIn_updateAccount (l : List Account) (accountId : String)
    (f : Account → Account) (hf : ∀ a, (f a).id = a.id) :
    getAccountIn (updateAccount l accountId f) accountId =
      (getAccountIn l accountId).map f := by
  induction l with
  | nil => rfl
  | cons a rest ih =>
    simp only [updateAccount, List.map_cons, getAccountIn, List.find?]
    cases hid : (a.id == accountId) with
    | true =>
      have hfa : ((f a).id == accountId) = true := by rw [hf a]; exact hid
      simp [hid, hfa]
    | false =>
      have hfa : ((f a).id == accountId) = false := by rw [hf a]; exact hid
      simp only [hid, if_neg, Bool.false_eq_true, ite_false, List.find?, hfa]
      simpa [updateAccount, getAccountIn] using ih

/-- Whether a getChats call at this state runs all the way to a resolving
fetch (active authenticated-or-ready account with a live handle, cache
expired, page open and readable, capability and info present, probe
resolving). -/
def fetchReached (s : ManagerState) (now : Nat) : Bool :=
  match getActiveAccount s with
  | none => false
  | some account =>
    match account.client with
    | none => false
    | some client =>
      (account.isReady || account.isAuthenticated) &&
      !cacheValid s now &&
      (match client.pupPage with
       | none => false
       | some page =>
         match page.isClosedResult with
         | .ok false => true
         | _ => false) &&
      client.hasGetChats &&
      (match client.info with
       | .ok (some _) => true
       | _ => false) &&
      (match client.getChatsResult with
       | .ok _ => true
       | .err => false)

/-- C6 (amended): a fetch that runs to a resolving getChats call — with any
well-formed result list, empty or not — promotes a not-yet-ready session
immediately (isReady set, isInitializing cleared, ready event emitted);
when the session is already ready, or the call short-circuits before a
resolving fetch, no ready event is emitted and no account flag changes. -/
theorem spec_C6 (s : ManagerState) (now : Nat) :
    (getActiveAccount s = none →
      (getChats s now).2.2 = [] ∧ (getChats s now).2.1 = s)
    ∧ (∀ account, getActiveAccount s = some account →
        ((fetchReached s now = true → account.isReady = false →
            (getChats s now).2.2 = [Event.ready account.id]
            ∧ ∀ a', getAccount (getChats s now).2.1 account.id = some a' →
                a'.isReady = true ∧ a'.isInitializing = false)
         ∧ (fetchReached s now = true → account.isReady = true →
             (getChats s now).2.2 = [])
         ∧ (fetchReached s now = false →
             (getChats s now).2.2 = []
             ∧ (getChats s now).2.1.accounts = s.accounts))) := by
  constructor
  · intro h
    simp [getChats, h]
  · intro account hacc
    cases hc : account.client with
    | none =>
      refine ⟨fun hf => ?_, fun hf => ?_, fun hf => by simp [getChats, hacc, hc]⟩
      all_goals
        simp [fetchReached, hacc, hc] at hf
    | some client =>
      by_cases hor : (account.isReady || account.isAuthenticated) = true
      case neg =>
        have hor' : (account.isReady || account.isAuthenticated) = false :=
          Bool.eq_false_iff.mpr hor
        have hguard : (!account.isReady && !account.isAuthenticated) = true := by
          cases hb1 : account.isReady <;> cases hb2 : account.isAuthenticated <;>
            simp_all
        refine ⟨fun hf => ?_, fun hf hr => ?_, fun hf => by simp [getChats, hacc, hc, hguard]⟩
        · simp [fetchReached, hacc, hc, hor'] at hf
        · rw [hr] at hor'
          simp at hor'
      case pos =>
        have hguard : (!account.isReady && !account.isAuthenticated) = false := by
          cases hb1 : account.isReady <;> cases hb2 : account.isAuthenticated <;>
            simp_all
        by_cases hcache : cacheValid s now = true
        case pos =>
          refine ⟨fun hf => ?_, fun hf => ?_, fun hf => by simp [getChats, hacc, hc, hguard, hcache]⟩
          all_goals simp [fetchReached, hacc, hc, hcache] at hf
        case neg =>
          have hcache' : cacheValid s now = false := Bool.eq_false_iff.mpr hcache
          cases hp : client.pupPage with
          | none =>
            refine ⟨fun hf => ?_, fun hf => ?_,
                    fun hf => by simp [getChats, hacc, hc, hguard, hcache', hp]⟩
            all_goals simp [fetchReached, hacc, hc, hp] at hf
          | some page =>
            cases hpc : page.isClosedResult with
            | err =>
              refine ⟨fun hf => ?_, fun hf => ?_,
                      fun hf => by simp [getChats, hacc, hc, hguard, hcache', hp, hpc]⟩
              all_goals simp [fetchReached, hacc, hc, hp, hpc] at hf
            | ok closed =>
              cases closed with
              | true =>
                refine ⟨fun hf => ?_, fun hf => ?_,
                        fun hf => by simp [getChats, hacc, hc, hguard, hcache', hp, hpc]⟩
                all_goals simp [fetchReached, hacc, hc, hp, hpc] at hf
              | false =>
                cases hg : client.hasGetChats with
                | false =>
                  refine ⟨fun hf => ?_, fun hf => ?_,
                          fun hf => by simp [getChats, hacc, hc, hguard, hcache', hp, hpc, hg]⟩
                  all_goals simp [fetchReached, hacc, hc, hp, hpc, hg] at hf
                | true =>
                  cases hi : client.info with
                  | err =>
                    refine ⟨fun hf => ?_, fun hf => ?_,
                            fun hf => by simp [getChats, hacc, hc, hguard, hcache', hp, hpc, hg, hi]⟩
                    all_goals simp [fetchReached, hacc, hc, hp, hpc, hg, hi] at hf
                  | ok widOpt =>
                    cases widOpt with
                    | none =>
                      refine ⟨fun hf => ?_, fun hf => ?_,
                              fun hf => by simp [getChats, hacc, hc, hguard, hcache', hp, hpc, hg, hi]⟩
                      all_goals simp [fetchReached, hacc, hc, hp, hpc, hg, hi] at hf
                    | some wid =>
                      cases hgc : client.getChatsResult with
                      | err =>
                        refine ⟨fun hf => ?_, fun hf => ?_,
                                fun hf => by simp [getChats, hacc, hc, hguard, hcache', hp, hpc, hg, hi, hgc]⟩
                        all_goals simp [fetchReached, hacc, hc, hp, hpc, hg, hi, hgc] at hf
                      | ok chats =>
                        refine ⟨fun hf hr => ⟨?_, ?_⟩, fun hf hr => ?_, fun hf => ?_⟩
                        · have hauth : account.isAuthenticated = true := by
                            simpa [hr] using hor
                          simp [getChats, hacc, hc, hguard, hcache', hp, hpc, hg, hi, hgc,
                            hr, hauth]
                        · intro a' ha'
                          have hauth : account.isAuthenticated = true := by
                            simpa [hr] using hor
                          have hupd := getAccountIn_updateAccount s.accounts account.id
                            (fun a => { a with isReady := true, isInitializing := false })
                            (fun a => rfl)
                          simp [getChats, hacc, hc, hguard, hcache', hp, hpc, hg, hi, hgc, hr,
                            hauth, getAccount, setReadyFlags, hupd] at ha'
                          obtain ⟨a0, -, hform⟩ := ha'
                          rw [← hform]
                          exact ⟨rfl, rfl⟩
                        · simp [getChats, hacc, hc, hguard, hcache', hp, hpc, hg, hi, hgc, hr]
                        · simp [fetchReached, hacc, hc, hor, hcache', hp, hpc, hg, hi, hgc] at hf

/-- A fully usable client whose chat store is still empty: the probe
resolves with the empty list. -/
def exC6client : ClientHandle :=
  { handleId := 1, pupPage := some { isClosedResult := .ok false }
    hasGetChats := true, info := .ok (some "15551234567")
    getChatsResult := .ok [] }

/-- Authenticated, not-yet-ready active account with that client. -/
def exC6acc : Account :=
  { id := "a1", name := "A", phone := none, createdAt := 1
    client := some exC6client, isReady := false, isAuthenticated := true
    isInitializing := true, qrCode := none }

/-- The manager holding that single account. -/
def exC6 : ManagerState :=
  { initialManager with accounts := [exC6acc], activeAccountId := some "a1" }

/-- C6 counterexample: a successful but EMPTY fetch — which does not
satisfy the claim's "successful non-empty fetch" condition — still promotes
the session: the ready event is emitted and the account ends up ready with
isInitializing cleared, contradicting "a fetch that does not satisfy this
condition performs no readiness promotion". -/
theorem spec_C6_cex :
    (getChats exC6 5000).1 = []
    ∧ (getChats exC6 5000).2.2 = [Event.ready "a1"]
    ∧ (getAccount (getChats exC6 5000).2.1 "a1").map (fun a => a.isReady)
        = some true := by
  refine ⟨by decide, by decide, by decide⟩

/-- The same state with the account already marked ready. -/
def exC6r : ManagerState :=
  { initialManager with
      accounts := [ { exC6acc with isReady := true } ]
      activeAccountId := some "a1" }

theorem spec_C6_witness :
    ((getChats exC6 5000).2.2 = [Event.ready "a1"]
      ∧ ∀ a', getAccount (getChats exC6 5000).2.1 "a1" = some a' →
          a'.isReady = true ∧ a'.isInitializing = false)
    ∧ (getChats exC6r 5000).2.2 = []
    ∧ ((getChats exC5 0).2.2 = [] ∧ (getChats exC5 0).2.1.accounts = exC5.accounts) :=
  ⟨by
    have h := ((spec_C6 exC6 5000).2 exC6acc rfl).1 (by decide) rfl
    exact h,
   ((spec_C6 exC6r 5000).2 { exC6acc with isReady := true } rfl).2.1 (by decide) rfl,
   ((spec_C6 exC5 0).2 exC5acc rfl).2.2 (by decide)⟩

/-- C4 (amended): the inbound-message fast-path and the monitor probe are
one-shot — the fast-path emits the ready event exactly when the account is
authenticated and not yet ready, and leaves isReady set afterwards, while
the monitor returns immediately (no event, no reschedule) once isReady
holds — but the automation-layer ready-signal handler emits the ready
event unconditionally after its settling delay, with no isReady check, so
an attempt promoted by the fast-path during the delay receives a second
ready event from that path. -/
theorem spec_C4 (s : ManagerState) (accountId : String) (account : Account)
    (n : Nat) :
    (getAccount s accountId = some account →
      ((onMessage s accountId).2.count (Event.ready accountId)
          = (if !account.isReady && account.isAuthenticated then 1 else 0))
      ∧ (account.isReady = true → checkAndSetReady s accountId n = (s, [], none))
      ∧ ((!account.isReady && account.isAuthenticated) = true →
          ∀ a', getAccount (onMessage s accountId).1 accountId = some a' →
            a'.isReady = true))
    ∧ (onReadyPhase2 s accountId).2.count (Event.ready accountId) = 1 := by
  constructor
  · intro hacc
    refine ⟨?_, fun hready => by simp [checkAndSetReady, hacc, hready], ?_⟩
    · cases hr : account.isReady <;> cases hau : account.isAuthenticated <;>
        simp [onMessage, hacc, hr, hau, List.count_cons]
    · intro hb a' ha'
      obtain ⟨hr, hau⟩ : account.isReady = false ∧ account.isAuthenticated = true := by
        simpa using hb
      have hacc' : getAccountIn s.accounts accountId = some account := hacc
      have hupd1 := getAccountIn_updateAccount s.accounts accountId
        (fun a => { a with isReady := true, isInitializing := false })
        (fun a => rfl)
      cases hph : jsIsFalsy account.phone with
      | false =>
        simp [onMessage, hacc, hacc', hr, hau, hph, getAccount, setReadyFlags,
          hupd1] at ha'
        obtain rfl := ha'
        rfl
      | true =>
        cases hcl : account.client with
        | none =>
          simp [onMessage, hacc, hacc', hr, hau, hph, hcl, getAccount, setReadyFlags,
            hupd1] at ha'
          obtain rfl := ha'
          rfl
        | some client =>
          cases hi : client.info with
          | err =>
            simp [onMessage, hacc, hacc', hr, hau, hph, hcl, hi, getAccount,
              setReadyFlags, hupd1] at ha'
            obtain rfl := ha'
            rfl
          | ok widOpt =>
            cases widOpt with
            | none =>
              simp [onMessage, hacc, hacc', hr, hau, hph, hcl, hi, getAccount,
                setReadyFlags, hupd1] at ha'
              obtain rfl := ha'
              rfl
            | some w =>
              have hupd2 := getAccountIn_updateAccount
                (updateAccount s.accounts accountId
                  (fun a => { a with isReady := true, isInitializing := false }))
                accountId (fun a => { a with phone := some w }) (fun a => rfl)
              simp [onMessage, hacc, hacc', hr, hau, hph, hcl, hi, getAccount,
                setReadyFlags, hupd2, hupd1] at ha'
              obtain rfl := ha'
              rfl
  · simp [onReadyPhase2, List.count_cons]

/-- The account at the moment the automation ready signal fires: attempt in
flight, QR still displayed, not yet authenticated or ready. -/
def exC4acc : Account :=
  { id := "a1", name := "A", phone := none, createdAt := 1
    client := some exC6client, isReady := false, isAuthenticated := false
    isInitializing := true, qrCode := some "QRDATA" }

/-- The manager at that moment. -/
def exC4 : ManagerState :=
  { initialManager with accounts := [exC4acc], activeAccountId := some "a1" }

/-- The interleaving of the counterexample: the ready handler runs its
pre-delay part, a message arrives during the settling delay, then the
post-delay part of the ready handler runs. -/
def exC4afterMsg : ManagerState × List Event :=
  onMessage (onReadyPhase1 exC4 "a1") "a1"

/-- The post-delay part applied after the fast-path promotion. -/
def exC4afterP2 : ManagerState × List Event :=
  onReadyPhase2 exC4afterMsg.1 "a1"

/-- C4 counterexample: within one initialization attempt, the fast-path
emits ready during the settling delay and the already-scheduled ready
handler emits ready again afterwards — two ready events for the attempt,
contradicting the claimed exactly-once promotion. -/
theorem spec_C4_cex :
    exC4afterMsg.2 = [Event.ready "a1", Event.message "a1"]
    ∧ exC4afterP2.2 = [Event.ready "a1"]
    ∧ (exC4afterMsg.2 ++ exC4afterP2.2).count (Event.ready "a1") = 2 := by
  refine ⟨by decide, by decide, by decide⟩

theorem spec_C4_witness :
    (onMessage exC6 "a1").2.count (Event.ready "a1")
        = (if !exC6acc.isReady && exC6acc.isAuthenticated then 1 else 0)
    ∧ checkAndSetReady exC6r "a1" 7 = (exC6r, [], none)
    ∧ ({ exC6acc with isReady := true, isInitializing := false
                      phone := some "15551234567" } : Account).isReady = true
    ∧ (onReadyPhase2 exC6 "a1").2.count (Event.ready "a1") = 1 :=
  ⟨((spec_C4 exC6 "a1" exC6acc 0).1 rfl).1,
   ((spec_C4 exC6r "a1" { exC6acc with isReady := true } 7).1 rfl).2.1 rfl,
   ((spec_C4 exC6 "a1" exC6acc 0).1 rfl).2.2 (by decide)
     { exC6acc with isReady := true, isInitializing := false
                    phone := some "15551234567" } (by decide),
   (spec_C4 exC6 "a1" exC6acc 0).2⟩

theorem mapProj_updateAccount (l : List Account) (accountId : String)
    (h' : ClientHandle) :
    (updateAccount l accountId
        (fun a => { a with isInitializing := true, client := some h' })).map
        (fun a => ({ id := a.id, name := a.name, phone := a.phone
                     createdAt := a.createdAt } : PersistedAccount))
      = l.map (fun a => { id := a.id, name := a.name, phone := a.phone
                          createdAt := a.createdAt }) := by
  unfold updateAccount
  rw [List.map_map]
  apply List.map_congr_left
  intro a ha
  by_cases hid : (a.id == accountId) = true
  · simp [Function.comp, hid]
  · simp [Function.comp, hid]

/-- The configuration switchAccount persists after moving the pointer. -/
def persistedView (s : ManagerState) (accountId : String) : AccountsConfig :=
  { activeAccountId := some accountId
    accounts := s.accounts.map (fun a =>
      { id := a.id, name := a.name, phone := a.phone, createdAt := a.createdAt }) }

/-- The state after a switch that kicks off no initialization: pointer
moved and persisted, everything else untouched. -/
def switchedNoInit (s : ManagerState) (accountId : String) : ManagerState :=
  { accounts := s.accounts
    activeAccountId := some accountId
    maxAccounts := s.maxAccounts
    deletedMessages := s.deletedMessages
    chatsCache := s.chatsCache
    chatsCacheTime := s.chatsCacheTime
    disk := persistedView s accountId
    deletedDisk := s.deletedDisk }

/-- The state after a switch that kicks off initialization: additionally
the target account is marked Initializing with the new handle installed. -/
def switchedInit (s : ManagerState) (accountId : String)
    (h' : ClientHandle) : ManagerState :=
  { switchedNoInit s accountId with
      accounts := updateAccount s.accounts accountId
        (fun a => { a with isInitializing := true, client := some h' }) }

/-- What switchAccount computes once the account is found: the active
pointer moves and is persisted, and initialization is kicked off exactly
when no handle exists and the account is not initializing, or a handle
exists but the account is neither ready nor initializing. The earlier
save-previous-state write is overwritten by the post-switch persist, so the
result does not depend on the previous pointer. -/
theorem switchAccount_char (s : ManagerState) (accountId : String)
    (h' : ClientHandle) (account : Account)
    (hacc : getAccount s accountId = some account) :
    switchAccount s accountId h' =
      (if ((account.client.isNone && !account.isInitializing)
            || (account.client.isSome && !account.isReady && !account.isInitializing))
          = true then
        .ok (switchedInit s accountId h'
            , { account with isInitializing := true, client := some h' }, true)
      else
        .ok (switchedNoInit s accountId, account, false)) := by
  have hacc' : getAccountIn s.accounts accountId = some account := hacc
  have hupd := getAccountIn_updateAccount s.accounts accountId
    (fun a => { a with isInitializing := true, client := some h' }) (fun a => rfl)
  cases hav : s.activeAccountId with
  | none =>
    cases hA : account.client <;> cases hB : account.isReady <;>
      cases hC : account.isInitializing <;>
        simp [switchAccount, hacc, hacc', hA, hB, hC, hav, initializeAccount,
          getAccount, hupd, saveAccountsConfig, switchedInit, switchedNoInit,
          persistedView]
  | some prev =>
    cases hpc : (prev != "" && prev != accountId &&
        (getAccountIn s.accounts prev).isSome) <;>
      cases hA : account.client <;> cases hB : account.isReady <;>
        cases hC : account.isInitializing <;>
          simp [switchAccount, hacc, hacc', hA, hB, hC, hav, hpc,
            initializeAccount, getAccount, hupd, saveAccountsConfig,
            switchedInit, switchedNoInit, persistedView]

/-- C7: switchAccount is idempotent on the same account id — whatever the
first call did (kick off initialization or not), an immediately repeated
call with the same id finds the account either Initializing or unchanged,
kicks off no second initialization, installs no new client handle, and
returns the very same state and account view with started = false. -/
theorem spec_C7 (s : ManagerState) (accountId : String) (h1 h2 : ClientHandle)
    (s1 : ManagerState) (a1 : Account) (b1 : Bool)
    (h : switchAccount s accountId h1 = .ok (s1, a1, b1)) :
    switchAccount s1 accountId h2 = .ok (s1, a1, false) := by
  cases hacc : getAccount s accountId with
  | none => simp [switchAccount, hacc] at h
  | some account =>
    have hacc' : getAccountIn s.accounts accountId = some account := hacc
    rw [switchAccount_char s accountId h1 account hacc] at h
    by_cases hcond : ((account.client.isNone && !account.isInitializing)
        || (account.client.isSome && !account.isReady && !account.isInitializing))
        = true
    · rw [if_pos hcond] at h
      simp only [Except.ok.injEq, Prod.mk.injEq] at h
      obtain ⟨hs1, ha1, -⟩ := h
      rw [← hs1, ← ha1]
      have hacc2 : getAccount (switchedInit s accountId h1) accountId =
          some ({ account with isInitializing := true, client := some h1 }) := by
        simp only [switchedInit, switchedNoInit, getAccount]
        rw [getAccountIn_updateAccount s.accounts accountId
          (fun a => { a with isInitializing := true, client := some h1 })
          (fun a => rfl), hacc']
        rfl
      rw [switchAccount_char (switchedInit s accountId h1) accountId h2 _ hacc2]
      rw [if_neg (by simp)]
      simp [switchedNoInit, switchedInit, persistedView, mapProj_updateAccount]
    · rw [if_neg hcond] at h
      simp only [Except.ok.injEq, Prod.mk.injEq] at h
      obtain ⟨hs1, ha1, -⟩ := h
      rw [← hs1, ← ha1]
      have hacc3 : getAccount (switchedNoInit s accountId) accountId =
          some account := hacc
      rw [switchAccount_char (switchedNoInit s accountId) accountId h2 account hacc3]
      rw [if_neg hcond]
      simp [switchedNoInit, persistedView]

/-- The handle parameter used in the C7 witness run. -/
def exC7h : ClientHandle :=
  { handleId := 5, pupPage := none, hasGetChats := false, info := .err
    getChatsResult := .err }

/-- The state produced by switching exS9 to its first account, which has no
client handle yet and so gets initialization kicked off. -/
def exC7s1 : ManagerState :=
  match switchAccount exS9 "a1" exC7h with
  | .ok (st, _, _) => st
  | .error _ => exS9

/-- The account view returned by that switch. -/
def exC7a1 : Account :=
  match switchAccount exS9 "a1" exC7h with
  | .ok (_, a, _) => a
  | .error _ =>
    { id := "", name := "", phone := none, createdAt := 0, client := none
      isReady := false, isAuthenticated := false, isInitializing := false
      qrCode := none }

/-- Whether that switch kicked off an initialization. -/
def exC7b1 : Bool :=
  match switchAccount exS9 "a1" exC7h with
  | .ok (_, _, b) => b
  | .error _ => false

theorem spec_C7_witness :
    switchAccount exS9 "a1" exC7h = .ok (exC7s1, exC7a1, exC7b1)
    ∧ switchAccount exC7s1 "a1" exC7h = .ok (exC7s1, exC7a1, false)
    ∧ exC7b1 = true :=
  ⟨rfl, spec_C7 exS9 "a1" exC7h exC7h exC7s1 exC7a1 exC7b1 rfl, by decide⟩

/-- Handle for account A in the cache-staleness run: its chat store holds
chatA1 and chatA2. -/
def c10hA : ClientHandle :=
  { handleId := 1, pupPage := some { isClosedResult := .ok false }
    hasGetChats := true, info := .ok (some "111"), getChatsResult := .ok ["chatA1", "chatA2"] }

/-- Handle for account B: its chat store holds chatB1 only. -/
def c10hB : ClientHandle :=
  { handleId := 2, pupPage := some { isClosedResult := .ok false }
    hasGetChats := true, info := .ok (some "222"), getChatsResult := .ok ["chatB1"] }

/-- Reachable run: create A (becomes active). -/
def c10sA : ManagerState :=
  match createAccount initialManager (some "A") 100 "accA" with
  | .ok (st, _) => st
  | .error _ => initialManager

/-- Then create B. -/
def c10sAB : ManagerState :=
  match createAccount c10sA (some "B") 200 "accB" with
  | .ok (st, _) => st
  | .error _ => c10sA

/-- Kick off initialization of A with its handle. -/
def c10s1 : ManagerState :=
  match initializeAccount c10sAB "accA" c10hA with
  | .ok (st, _) => st
  | .error _ => c10sAB

/-- A authenticates. -/
def c10s2 : ManagerState := (onAuthenticated c10s1 "accA").1

/-- Kick off initialization of B with its handle. -/
def c10s3 : ManagerState :=
  match initializeAccount c10s2 "accB" c10hB with
  | .ok (st, _) => st
  | .error _ => c10s2

/-- B authenticates. -/
def c10s4 : ManagerState := (onAuthenticated c10s3 "accB").1

/-- A poller fetches chats at t = 1000 ms while A is active: the result is
cached manager-wide. -/
def c10s5 : ManagerState := (getChats c10s4 1000).2.1

/-- The user switches the active account to B. -/
def c10s6 : ManagerState :=
  match switchAccount c10s5 "accB" c10hB with
  | .ok (st, _, _) => st
  | .error _ => c10s5

/-- C10: the chats cache is a single manager-wide value, not keyed by
account and not invalidated by switchAccount: in this reachable run, after
switching the active account from A to B, a getChats call 1500 ms after
the previous fetch returns the cached chat list of A even though B is now
active and its own store holds a different list. -/
theorem spec_C10 :
    (getChats c10s4 1000).1 = ["chatA1", "chatA2"]
    ∧ c10s6.activeAccountId = some "accB"
    ∧ ((getAccount c10s6 "accB").bind (fun a => a.client)).map
        (fun c => c.getChatsResult) = some (JsResult.ok ["chatB1"])
    ∧ (getChats c10s6 2500).1 = ["chatA1", "chatA2"]
    ∧ (["chatA1", "chatA2"] : List Chat) ≠ ["chatB1"] := by
  refine ⟨by decide, by decide, by decide, by decide, by decide⟩

end Whatsapp
